import Mathlib

/-!
# Jawbreaker score service

A shallow embedding of `main.go`: the `game_scores` table, the two request
handlers `scoreHandler` and `statsHandler`, the JSON reply helper `sendJSON`
and the start-up routine `execPragmas`.

The database handle `db` and the `http.ResponseWriter` are explicit values
that every function takes and returns.  What the environment decides (whether
the driver reports an error for a statement, the store's clock, the UTC date
of the request) is an argument of the handler.
-/

namespace Jawbreaker

/-! ## Data model -/

/-- UTC calendar date, the value that both `DATE(timestamp)` and
`time.Now().UTC().Format("2006-01-02")` denote. -/
structure Date where
  year : Nat
  month : Nat
  day : Nat
  deriving DecidableEq, Repr

/-- Value of the `timestamp DATETIME DEFAULT CURRENT_TIMESTAMP` column. -/
structure Timestamp where
  date : Date
  hour : Nat
  minute : Nat
  second : Nat
  deriving DecidableEq, Repr

/-- SQL `DATE(timestamp)`. -/
def DATE (t : Timestamp) : Date := t.date

/-- One row of `game_scores (id, score, timestamp)`. -/
structure Row where
  id : Nat
  score : Int
  timestamp : Timestamp
  deriving DecidableEq, Repr

/-- State behind the handle `db`: the rows of `game_scores` in insertion
order, the AUTOINCREMENT counter and the pragmas applied so far. -/
structure DB where
  rows : List Row
  seq : Nat
  pragmas : List (String × String)
  deriving DecidableEq, Repr

/-- Statements the program passes to `db.Exec`. -/
inductive Stmt where
  /-- `INSERT INTO game_scores (score) VALUES (?)` with its argument. -/
  | insertScore (score : Int)
  /-- `PRAGMA name=value;`. -/
  | pragma (name value : String)
  deriving DecidableEq, Repr

/-- Statements the program passes to `db.QueryRow`. -/
inductive Query where
  /-- `SELECT count(*) FROM game_scores`. -/
  | countAll
  /-- `SELECT count(*) FROM game_scores WHERE DATE(timestamp) = ?`. -/
  | countOnDate (utc : Date)
  /-- `SELECT MAX(score) FROM game_scores WHERE DATE(timestamp) = ?`. -/
  | maxScoreOnDate (utc : Date)
  deriving DecidableEq, Repr

/-- Single-column result of a query. -/
inductive SqlValue where
  | null
  | integer (n : Int)
  deriving DecidableEq, Repr

/-- The calls a handler makes on `db`, in order. -/
inductive DBCall where
  | exec (s : Stmt)
  | queryRow (q : Query)
  deriving DecidableEq, Repr

/-- Rows with `DATE(timestamp) = utc`. -/
def DB.rowsOn (db : DB) (utc : Date) : List Row :=
  db.rows.filter (fun r => decide (DATE r.timestamp = utc))

/-- SQL `MAX` over a column: NULL on the empty set. -/
def sqlMax : List Int → SqlValue
  | [] => SqlValue.null
  | x :: xs => SqlValue.integer (xs.foldl max x)

/-- Run `db.Exec`.  `fault` is the error the driver reports, if any; a statement
that fails changes nothing.  `now` is the store's clock, read by
`CURRENT_TIMESTAMP`. -/
def DB.exec (db : DB) (s : Stmt) (now : Timestamp) (fault : Option String) :
    Option String × DB :=
  match fault with
  | some e => (some e, db)
  | none =>
    match s with
    | Stmt.insertScore score =>
      (none, { db with
        rows := db.rows ++ [{ id := db.seq + 1, score := score, timestamp := now }],
        seq := db.seq + 1 })
    | Stmt.pragma name value =>
      (none, { db with pragmas := db.pragmas ++ [(name, value)] })

/-- Run `db.QueryRow`: a read, the state stays as it is. -/
def DB.queryRow (db : DB) (q : Query) (fault : Option String) : Except String SqlValue :=
  match fault with
  | some e => Except.error e
  | none =>
    match q with
    | Query.countAll => Except.ok (SqlValue.integer db.rows.length)
    | Query.countOnDate utc => Except.ok (SqlValue.integer (db.rowsOn utc).length)
    | Query.maxScoreOnDate utc => Except.ok (sqlMax ((db.rowsOn utc).map Row.score))

/-- `(*sql.Row).Scan(&dest)` for `dest` of type `int`: on an error of the query,
or on NULL, `dest` keeps its value and the error is returned. -/
def scanInt (r : Except String SqlValue) (dest : Int) : Int × Option String :=
  match r with
  | Except.error e => (dest, some e)
  | Except.ok SqlValue.null =>
    (dest, some ("sql: Scan error on column index 0, name \"MAX(score)\": "
      ++ "converting NULL to int is unsupported"))
  | Except.ok (SqlValue.integer n) => (n, none)

/-! ## `strconv.Atoi` (64-bit `int`) -/

/-- The two errors of package `strconv`. -/
inductive NumError where
  | errSyntax
  | errRange
  deriving DecidableEq, Repr

def maxUint64 : Nat := 2 ^ 64 - 1

/-- Loop of `strconv.ParseUint(s, 10, 64)`; the `uint64` accumulator is a `Nat`,
and the overflow test `n1 < n || n1 > maxVal` is the test `n1 > maxVal` on it. -/
def parseUintLoop : List Char → Nat → Except NumError Nat
  | [], n => Except.ok n
  | c :: cs, n =>
    if '0' ≤ c ∧ c ≤ '9' then
      if n ≥ maxUint64 / 10 + 1 then Except.error NumError.errRange
      else
        let n1 := n * 10 + (c.toNat - '0'.toNat)
        if n1 > maxUint64 then Except.error NumError.errRange
        else parseUintLoop cs n1
    else Except.error NumError.errSyntax

/-- `strconv.ParseUint(s, 10, 64)`. -/
def ParseUint (s : List Char) : Except NumError Nat :=
  match s with
  | [] => Except.error NumError.errSyntax
  | _ => parseUintLoop s 0

/-- `strconv.ParseInt(s, 10, 0)` with `IntSize = 64`. -/
def ParseInt (s : List Char) : Except NumError Int :=
  match s with
  | [] => Except.error NumError.errSyntax
  | c :: cs =>
    let neg := decide (c = '-')
    let s1 := if c = '+' ∨ c = '-' then cs else c :: cs
    match ParseUint s1 with
    | Except.error NumError.errSyntax => Except.error NumError.errSyntax
    | Except.error NumError.errRange => Except.error NumError.errRange
    | Except.ok un =>
      if neg = false ∧ un ≥ 2 ^ 63 then Except.error NumError.errRange
      else if neg = true ∧ un > 2 ^ 63 then Except.error NumError.errRange
      else Except.ok (if neg then -(un : Int) else (un : Int))

/-- `strconv.Atoi`: its short-input path computes what `ParseInt(s, 10, 0)`
computes. -/
def Atoi (s : String) : Except NumError Int := ParseInt s.data

/-! ## `http.ResponseWriter` -/

/-- What a handler has sent: the header map, the status line once written,
and the body bytes. -/
structure ResponseWriter where
  header : List (String × String)
  status : Option Nat
  body : String
  deriving DecidableEq, Repr

def StatusOK : Nat := 200
def StatusBadRequest : Nat := 400
def StatusInternalServerError : Nat := 500

/-- The writer a handler is given. -/
def ResponseWriter.fresh : ResponseWriter := { header := [], status := none, body := "" }

/-- `w.Header().Del(key)`; no effect once the header is written. -/
def ResponseWriter.delHeader (w : ResponseWriter) (key : String) : ResponseWriter :=
  match w.status with
  | some _ => w
  | none => { w with header := w.header.filter (fun kv => decide (kv.1 ≠ key)) }

/-- `w.Header().Set(key, value)`; no effect once the header is written. -/
def ResponseWriter.setHeader (w : ResponseWriter) (key value : String) : ResponseWriter :=
  match w.status with
  | some _ => w
  | none =>
    { w with header := w.header.filter (fun kv => decide (kv.1 ≠ key)) ++ [(key, value)] }

/-- `w.Header().Get(key)`. -/
def ResponseWriter.getHeader (w : ResponseWriter) (key : String) : Option String :=
  (w.header.find? (fun kv => decide (kv.1 = key))).map Prod.snd

/-- `w.WriteHeader(code)`; a second call is ignored. -/
def ResponseWriter.WriteHeader (w : ResponseWriter) (code : Nat) : ResponseWriter :=
  match w.status with
  | some _ => w
  | none => { w with status := some code }

/-- `w.Write(bytes)`: writes the header with status 200 first when it has not
been written.  The writer records what is sent, as `httptest.ResponseRecorder`
does, and the write itself returns no error. -/
def ResponseWriter.Write (w : ResponseWriter) (bytes : String) : ResponseWriter :=
  let w1 := w.WriteHeader StatusOK
  { w1 with body := w1.body ++ bytes }

/-- `http.Error(w, error, code)`: plain-text headers, the status, then the
message printed with `fmt.Fprintln`. -/
def httpError (w : ResponseWriter) (error : String) (code : Nat) : ResponseWriter :=
  let w1 := w.delHeader "Content-Length"
  let w2 := w1.setHeader "Content-Type" "text/plain; charset=utf-8"
  let w3 := w2.setHeader "X-Content-Type-Options" "nosniff"
  let w4 := w3.WriteHeader code
  w4.Write (error ++ "\n")

/-! ## Handlers -/

structure GameStats where
  GamesPlayedAllTime : Int
  GamesPlayedToday : Int
  HighScore : Int
  deriving DecidableEq, Repr

/-- `json.Marshal` of a `GameStats`: the three tagged fields in declaration
order. -/
def jsonMarshal (data : GameStats) : Except String String :=
  Except.ok ("\x7b\"games_played_all_time\":" ++ toString data.GamesPlayedAllTime
    ++ ",\"games_played_today\":" ++ toString data.GamesPlayedToday
    ++ ",\"high_score\":" ++ toString data.HighScore ++ "\x7d")

/-- What the environment decides during `scoreHandler`. -/
structure ScoreEnv where
  execFault : Option String
  now : Timestamp

/-- Outcome of a handler run. -/
structure HandlerResult where
  w : ResponseWriter
  db : DB
  calls : List DBCall
  logs : List String
  deriving DecidableEq, Repr

def scoreHandler (w : ResponseWriter) (db : DB) (env : ScoreEnv) (value : String) :
    HandlerResult :=
  match Atoi value with
  | Except.error _ =>
    { w := httpError w "Invalid score" StatusBadRequest, db := db, calls := [], logs := [] }
  | Except.ok score =>
    match db.exec (Stmt.insertScore score) env.now env.execFault with
    | (some err, db1) =>
      { w := httpError w "Failed to record score" StatusInternalServerError,
        db := db1,
        calls := [DBCall.exec (Stmt.insertScore score)],
        logs := ["scoreHandler: " ++ err ++ "\n"] }
    | (none, db1) =>
      { w := (w.WriteHeader StatusOK).Write "OK",
        db := db1,
        calls := [DBCall.exec (Stmt.insertScore score)],
        logs := [] }

def sendJSON (w : ResponseWriter) (status : Nat) (data : GameStats) :
    ResponseWriter × Option String :=
  match jsonMarshal data with
  | Except.error err => (w, some err)
  | Except.ok js =>
    let js := js ++ "\n"
    let w1 := w.setHeader "Content-Type" "application/json"
    let w2 := w1.WriteHeader status
    (w2.Write js, none)

def handleServerError (w : ResponseWriter) (message : String) (err : String) :
    ResponseWriter × List String :=
  (httpError w "Internal Server Error" StatusInternalServerError,
    [message ++ ": " ++ err ++ "\n"])

/-- What the environment decides during `statsHandler`: the UTC date of
`time.Now()` and, per query, the error the driver reports, if any. -/
structure StatsEnv where
  utc : Date
  faultAllTime : Option String
  faultToday : Option String
  faultHighScore : Option String

/-- Log lines of one `if err != nil` block of `statsHandler`. -/
def logIfErr (message : String) (err : Option String) : List String :=
  match err with
  | some e => [message ++ ": " ++ e ++ "\n"]
  | none => []

/-- Outcome of `statsHandler`; `stats` is the value it passes to `sendJSON`. -/
structure StatsResult where
  stats : GameStats
  w : ResponseWriter
  db : DB
  calls : List DBCall
  logs : List String
  deriving DecidableEq, Repr

def statsHandler (w : ResponseWriter) (db : DB) (env : StatsEnv) : StatsResult :=
  let utc := env.utc
  let message := "statsHandler"
  let (gamesPlayedAllTime, err1) := scanInt (db.queryRow Query.countAll env.faultAllTime) 0
  let (gamesPlayedToday, err2) :=
    scanInt (db.queryRow (Query.countOnDate utc) env.faultToday) 0
  let (highScore, err3) :=
    scanInt (db.queryRow (Query.maxScoreOnDate utc) env.faultHighScore) 0
  let stats : GameStats :=
    { GamesPlayedAllTime := gamesPlayedAllTime,
      GamesPlayedToday := gamesPlayedToday,
      HighScore := highScore }
  let logs := logIfErr message err1 ++ logIfErr message err2 ++ logIfErr message err3
  let calls := [DBCall.queryRow Query.countAll, DBCall.queryRow (Query.countOnDate utc),
    DBCall.queryRow (Query.maxScoreOnDate utc)]
  match sendJSON w StatusOK stats with
  | (w1, none) => { stats := stats, w := w1, db := db, calls := calls, logs := logs }
  | (w1, some err) =>
    let (w2, l) := handleServerError w1 "Failed to send JSON" err
    { stats := stats, w := w2, db := db, calls := calls, logs := logs ++ l }

/-! ## Start-up -/

/-- Outcome of `execPragmas`: `fatal` is the argument of `log.Fatal` when the
process exits there. -/
structure InitResult where
  db : DB
  calls : List DBCall
  fatal : Option String
  deriving DecidableEq, Repr

def execPragmas (db : DB) (now : Timestamp) (fault : Stmt → Option String) : InitResult :=
  let s1 := Stmt.pragma "journal_mode" "WAL"
  let s2 := Stmt.pragma "synchronous" "NORMAL"
  let s3 := Stmt.pragma "foreign_keys" "ON"
  let s4 := Stmt.pragma "cache_size" "-64000"
  let s5 := Stmt.pragma "busy_timeout" "30000"
  match db.exec s1 now (fault s1) with
  | (some err, d1) => { db := d1, calls := [DBCall.exec s1], fatal := some err }
  | (none, d1) =>
  match d1.exec s2 now (fault s2) with
  | (some err, d2) => { db := d2, calls := [DBCall.exec s1, DBCall.exec s2], fatal := some err }
  | (none, d2) =>
  match d2.exec s3 now (fault s3) with
  | (some err, d3) =>
    { db := d3, calls := [DBCall.exec s1, DBCall.exec s2, DBCall.exec s3], fatal := some err }
  | (none, d3) =>
  match d3.exec s4 now (fault s4) with
  | (some err, d4) =>
    { db := d4, calls := [DBCall.exec s1, DBCall.exec s2, DBCall.exec s3, DBCall.exec s4],
      fatal := some err }
  | (none, d4) =>
  match d4.exec s5 now (fault s5) with
  | (some err, d5) =>
    { db := d5,
      calls := [DBCall.exec s1, DBCall.exec s2, DBCall.exec s3, DBCall.exec s4, DBCall.exec s5],
      fatal := some err }
  | (none, d5) =>
    { db := d5,
      calls := [DBCall.exec s1, DBCall.exec s2, DBCall.exec s3, DBCall.exec s4, DBCall.exec s5],
      fatal := none }


/-! ## Concrete values used in the examples -/

def day1 : Date := { year := 2024, month := 11, day := 5 }

def noon : Timestamp := { date := day1, hour := 12, minute := 0, second := 0 }

def emptyDB : DB := { rows := [], seq := 0, pragmas := [] }

def noFault (utc : Date) : StatsEnv :=
  { utc := utc, faultAllTime := none, faultToday := none, faultHighScore := none }

/-! ## Decimal text -/

theorem digitChar_digit (d : Nat) (h : d < 10) :
    '0' ≤ Nat.digitChar d ∧ Nat.digitChar d ≤ '9' ∧
      (Nat.digitChar d).toNat - '0'.toNat = d := by
  interval_cases d <;> decide

theorem parseUintLoop_toDigitsCore (fuel : Nat) :
    ∀ (n : Nat) (ds : List Char), n < fuel → n ≤ maxUint64 →
      parseUintLoop (Nat.toDigitsCore 10 fuel n ds) 0 = parseUintLoop ds n := by
  induction fuel with
  | zero => intro n ds h; omega
  | succ fuel ih =>
    intro n ds hlt hmax
    have hd := digitChar_digit (n % 10) (Nat.mod_lt _ (by decide))
    have hmax' : n ≤ 18446744073709551615 := by simpa [maxUint64] using hmax
    unfold Nat.toDigitsCore
    by_cases h0 : n / 10 = 0
    · have hn : n % 10 = n := by omega
      simp only [h0, if_true]
      simp only [parseUintLoop, hd.1, hd.2.1, and_self, if_true, hd.2.2, maxUint64]
      simp only [hn]
      rw [if_neg (by omega), if_neg (by omega)]
      simp
    · simp only [h0, if_false]
      rw [ih (n / 10) _ (by omega) (by simp only [maxUint64]; omega)]
      simp only [parseUintLoop, hd.1, hd.2.1, and_self, if_true, hd.2.2, maxUint64]
      rw [if_neg (by omega), if_neg (by omega)]
      congr 1
      omega

theorem toDigitsCore_head (fuel : Nat) :
    ∀ (n : Nat) (ds : List Char), n < fuel →
      ∃ c rest, Nat.toDigitsCore 10 fuel n ds = c :: rest ∧ '0' ≤ c ∧ c ≤ '9' := by
  induction fuel with
  | zero => intro n ds h; omega
  | succ fuel ih =>
    intro n ds hlt
    have hd := digitChar_digit (n % 10) (Nat.mod_lt _ (by decide))
    unfold Nat.toDigitsCore
    by_cases h0 : n / 10 = 0
    · simp only [h0, if_true]
      exact ⟨_, _, rfl, hd.1, hd.2.1⟩
    · simp only [h0, if_false]
      exact ih (n / 10) _ (by omega)

theorem ParseUint_toDigits (n : Nat) (h : n ≤ maxUint64) :
    ParseUint (Nat.toDigits 10 n) = Except.ok n := by
  obtain ⟨c, rest, hc, -, -⟩ := toDigitsCore_head (n + 1) n [] (Nat.lt_succ_self n)
  have hp := parseUintLoop_toDigitsCore (n + 1) n [] (Nat.lt_succ_self n) h
  unfold Nat.toDigits
  rw [hc] at hp ⊢
  simpa [ParseUint, parseUintLoop] using hp

theorem Atoi_toString (n : Int) (hlo : -(2 : Int) ^ 63 ≤ n) (hhi : n < (2 : Int) ^ 63) :
    Atoi (toString n) = Except.ok n := by
  cases n with
  | ofNat m =>
    have hm : m < 2 ^ 63 := by
      have : (m : Int) < 2 ^ 63 := hhi
      exact_mod_cast this
    obtain ⟨c, rest, hc, hc0, hc9⟩ := toDigitsCore_head (m + 1) m [] (Nat.lt_succ_self m)
    have hp := ParseUint_toDigits m (by simp only [maxUint64]; omega)
    have hdata : (toString (Int.ofNat m)).data = c :: rest := by
      show (Nat.toDigits 10 m).asString.data = _
      simp [Nat.toDigits, hc, List.asString]
    have hplus : c ≠ '+' := by
      intro h; subst h; exact absurd hc0 (by decide)
    have hminus : c ≠ '-' := by
      intro h; subst h; exact absurd hc0 (by decide)
    have hp' : ParseUint (c :: rest) = Except.ok m := by
      rw [← hc]; exact hp
    unfold Atoi
    rw [hdata]
    simp only [ParseInt, hplus, hminus, or_self, if_false, hp', decide_False]
    rw [if_neg (by omega)]
    simp
  | negSucc m =>
    have hm : m + 1 ≤ 2 ^ 63 := by
      have h1 : -(2 : Int) ^ 63 ≤ Int.negSucc m := hlo
      rw [Int.negSucc_eq] at h1
      omega
    have hp := ParseUint_toDigits (m + 1) (by simp only [maxUint64]; omega)
    have hdata : (toString (Int.negSucc m)).data = '-' :: Nat.toDigits 10 (m + 1) := by
      show ("-" ++ (Nat.toDigits 10 (m + 1)).asString).data = _
      simp [List.asString]
    unfold Atoi
    rw [hdata]
    simp only [ParseInt, or_true, if_true, hp, decide_True]
    rw [if_neg (by simp), if_neg (by omega)]
    simp [Int.negSucc_eq]

/-! ## Aggregates -/

theorem foldl_max_ge_init (xs : List Int) : ∀ x : Int, x ≤ xs.foldl max x := by
  induction xs with
  | nil => intro x; exact le_refl x
  | cons y ys ih => intro x; exact le_trans (le_max_left x y) (ih (max x y))

theorem foldl_max_ge_mem (xs : List Int) : ∀ x : Int, ∀ y ∈ xs, y ≤ xs.foldl max x := by
  induction xs with
  | nil => intro x y hy; cases hy
  | cons z zs ih =>
    intro x y hy
    rcases List.mem_cons.mp hy with h | h
    · subst h
      exact le_trans (le_max_right x y) (foldl_max_ge_init zs (max x y))
    · exact ih (max x z) y h

theorem foldl_max_mem (xs : List Int) : ∀ x : Int, xs.foldl max x ∈ x :: xs := by
  induction xs with
  | nil => intro x; simp
  | cons z zs ih =>
    intro x
    have h := ih (max x z)
    rcases List.mem_cons.mp h with h1 | h1
    · rcases max_choice x z with hc | hc
      · rw [List.foldl_cons, h1, hc]; simp
      · rw [List.foldl_cons, h1, hc]; simp
    · rw [List.foldl_cons]
      exact List.mem_cons_of_mem _ (List.mem_cons_of_mem _ h1)

theorem sqlMax_append_singleton (l : List Int) (s : Int) :
    sqlMax (l ++ [s]) =
      match sqlMax l with
      | SqlValue.null => SqlValue.integer s
      | SqlValue.integer m => SqlValue.integer (max m s) := by
  cases l with
  | nil => simp [sqlMax]
  | cons x xs => simp [sqlMax, List.foldl_append]

theorem sqlMax_eq_null_iff (l : List Int) : sqlMax l = SqlValue.null ↔ l = [] := by
  cases l <;> simp [sqlMax]

theorem rowsOn_eq_nil_iff (db : DB) (d : Date) :
    db.rowsOn d = [] ↔ ∀ row ∈ db.rows, DATE row.timestamp ≠ d := by
  simp [DB.rowsOn, List.filter_eq_nil_iff]

theorem mem_rowsOn (db : DB) (d : Date) (row : Row) :
    row ∈ db.rowsOn d ↔ row ∈ db.rows ∧ DATE row.timestamp = d := by
  simp [DB.rowsOn, List.mem_filter]

/-- The three values `statsHandler` puts in its reply. -/
theorem statsHandler_stats (w : ResponseWriter) (db : DB) (env : StatsEnv) :
    (statsHandler w db env).stats =
      { GamesPlayedAllTime := (scanInt (db.queryRow Query.countAll env.faultAllTime) 0).1,
        GamesPlayedToday :=
          (scanInt (db.queryRow (Query.countOnDate env.utc) env.faultToday) 0).1,
        HighScore :=
          (scanInt (db.queryRow (Query.maxScoreOnDate env.utc) env.faultHighScore) 0).1 } := by
  rfl

theorem statsHandler_w (w : ResponseWriter) (db : DB) (env : StatsEnv) :
    (statsHandler w db env).w = (sendJSON w StatusOK (statsHandler w db env).stats).1 := by
  rfl

theorem statsHandler_db (w : ResponseWriter) (db : DB) (env : StatsEnv) :
    (statsHandler w db env).db = db := by
  rfl

theorem scoreHandler_ok (w : ResponseWriter) (db : DB) (now : Timestamp) (value : String)
    (s : Int) (hv : Atoi value = Except.ok s) :
    scoreHandler w db { execFault := none, now := now } value =
      { w := (w.WriteHeader StatusOK).Write "OK",
        db := { db with
          rows := db.rows ++ [{ id := db.seq + 1, score := s, timestamp := now }],
          seq := db.seq + 1 },
        calls := [DBCall.exec (Stmt.insertScore s)],
        logs := [] } := by
  simp [scoreHandler, hv, DB.exec]

theorem scoreHandler_fault (w : ResponseWriter) (db : DB) (now : Timestamp) (value : String)
    (s : Int) (e : String) (hv : Atoi value = Except.ok s) :
    scoreHandler w db { execFault := some e, now := now } value =
      { w := httpError w "Failed to record score" StatusInternalServerError,
        db := db,
        calls := [DBCall.exec (Stmt.insertScore s)],
        logs := ["scoreHandler: " ++ e ++ "\n"] } := by
  simp [scoreHandler, hv, DB.exec]

theorem scoreHandler_invalid (w : ResponseWriter) (db : DB) (env : ScoreEnv) (value : String)
    (e : NumError) (hv : Atoi value = Except.error e) :
    scoreHandler w db env value =
      { w := httpError w "Invalid score" StatusBadRequest, db := db, calls := [], logs := [] } := by
  simp [scoreHandler, hv]

/-! ## Score submission followed by statistics -/

/-- C1, as stated, fails: on the empty store the reply reports high score 0,
and after the score -5 is recorded the same day it reports -5, which is not
`max 0 (-5)`. -/
theorem score_then_stats_counterexample :
    Atoi "-5" = Except.ok (-5) ∧
    (statsHandler ResponseWriter.fresh emptyDB (noFault day1)).stats.HighScore = 0 ∧
    (statsHandler ResponseWriter.fresh
        (scoreHandler ResponseWriter.fresh emptyDB { execFault := none, now := noon } "-5").db
        (noFault day1)).stats.HighScore ≠
      max (statsHandler ResponseWriter.fresh emptyDB (noFault day1)).stats.HighScore (-5) := by
  refine ⟨rfl, rfl, ?_⟩
  decide

/-- C1 (amended): when `scoreHandler` records the integer `s` (insert
succeeding, new row dated `d`), `statsHandler` run on date `d` with no query
failing reports, compared with its reply on the state before the submission,
`games_played_all_time` larger by 1 and `games_played_today` larger by 1;
`high_score` is `max (previous high_score) s` when a row dated `d` existed
before or `s` is not negative, and is `s` when no row was dated `d` before. -/
theorem score_then_stats (w w1 w2 : ResponseWriter) (db : DB) (now : Timestamp)
    (value : String) (s : Int) (hv : Atoi value = Except.ok s) :
    (statsHandler w2 (scoreHandler w db { execFault := none, now := now } value).db
        (noFault (DATE now))).stats.GamesPlayedAllTime =
      (statsHandler w1 db (noFault (DATE now))).stats.GamesPlayedAllTime + 1 ∧
    (statsHandler w2 (scoreHandler w db { execFault := none, now := now } value).db
        (noFault (DATE now))).stats.GamesPlayedToday =
      (statsHandler w1 db (noFault (DATE now))).stats.GamesPlayedToday + 1 ∧
    (((∃ row ∈ db.rows, DATE row.timestamp = DATE now) ∨ 0 ≤ s) →
      (statsHandler w2 (scoreHandler w db { execFault := none, now := now } value).db
          (noFault (DATE now))).stats.HighScore =
        max (statsHandler w1 db (noFault (DATE now))).stats.HighScore s) ∧
    ((∀ row ∈ db.rows, DATE row.timestamp ≠ DATE now) →
      (statsHandler w2 (scoreHandler w db { execFault := none, now := now } value).db
          (noFault (DATE now))).stats.HighScore = s) := by
  rw [scoreHandler_ok w db now value s hv]
  simp only [statsHandler_stats, noFault, DB.queryRow, DB.rowsOn, List.filter_append,
    List.map_append, List.length_append, scanInt]
  have hnew : List.filter (fun r : Row => decide (DATE r.timestamp = DATE now))
      [{ id := db.seq + 1, score := s, timestamp := now }] =
      [{ id := db.seq + 1, score := s, timestamp := now }] := by simp
  rw [hnew]
  simp only [List.map_cons, List.map_nil, List.length_singleton, sqlMax_append_singleton]
  refine ⟨by push_cast; rfl, by push_cast; rfl, ?_, ?_⟩
  · intro h
    generalize hl : List.map Row.score
      (List.filter (fun r : Row => decide (DATE r.timestamp = DATE now)) db.rows) = l
    cases l with
    | nil =>
      rcases h with ⟨row, hrow, hd⟩ | h
      · have hmem : row.score ∈ List.map Row.score
            (List.filter (fun r : Row => decide (DATE r.timestamp = DATE now)) db.rows) :=
          List.mem_map.mpr ⟨row, List.mem_filter.mpr ⟨hrow, by simpa using hd⟩, rfl⟩
        rw [hl] at hmem
        cases hmem
      · simp [sqlMax, h]
    | cons x xs => simp [sqlMax]
  · intro h
    have hnil : List.filter (fun r : Row => decide (DATE r.timestamp = DATE now)) db.rows = [] := by
      simpa [List.filter_eq_nil_iff] using h
    simp [hnil, sqlMax]

/-- Concrete instance: 25 submitted into the empty store. -/
theorem score_then_stats_witness :
    Atoi "25" = Except.ok 25 ∧
    (statsHandler ResponseWriter.fresh
        (scoreHandler ResponseWriter.fresh emptyDB { execFault := none, now := noon } "25").db
        (noFault (DATE noon))).stats.GamesPlayedAllTime =
      (statsHandler ResponseWriter.fresh emptyDB (noFault (DATE noon))).stats.GamesPlayedAllTime
        + 1 :=
  ⟨rfl, (score_then_stats ResponseWriter.fresh ResponseWriter.fresh ResponseWriter.fresh
    emptyDB noon "25" 25 rfl).1⟩

/-! ## Rejected submissions -/

/-- C2, as stated, fails on the body: for the path segment `abc` the reply has
status 400 and its body is the message followed by a line feed, not the bare
message. -/
theorem invalid_score_counterexample :
    Atoi "abc" = Except.error NumError.errSyntax ∧
    (scoreHandler ResponseWriter.fresh emptyDB { execFault := none, now := noon } "abc").w.status
      = some 400 ∧
    (scoreHandler ResponseWriter.fresh emptyDB { execFault := none, now := noon } "abc").w.body
      ≠ "Invalid score" := by
  refine ⟨rfl, rfl, ?_⟩
  decide

/-- C2 (amended): for every path segment that `strconv.Atoi` does not parse,
`scoreHandler` replies with status 400 and the body `Invalid score` followed by
one line feed, makes no call on the store and leaves it unchanged, so
`statsHandler` reports the same three values before and after the request. -/
theorem invalid_score_rejected (db : DB) (env : ScoreEnv) (value : String) (e : NumError)
    (hv : Atoi value = Except.error e) :
    (scoreHandler ResponseWriter.fresh db env value).w.status = some 400 ∧
    (scoreHandler ResponseWriter.fresh db env value).w.body = "Invalid score\n" ∧
    (scoreHandler ResponseWriter.fresh db env value).calls = [] ∧
    (scoreHandler ResponseWriter.fresh db env value).db = db ∧
    ∀ (w1 w2 : ResponseWriter) (senv : StatsEnv),
      (statsHandler w2 (scoreHandler ResponseWriter.fresh db env value).db senv).stats =
        (statsHandler w1 db senv).stats := by
  rw [scoreHandler_invalid ResponseWriter.fresh db env value e hv]
  have hbody : (httpError ResponseWriter.fresh "Invalid score" StatusBadRequest).body =
      "Invalid score\n" := by decide
  refine ⟨rfl, hbody, rfl, rfl, ?_⟩
  intro w1 w2 senv
  rfl

/-- Concrete instance: the segments `abc` and the empty
string. -/
theorem invalid_score_rejected_witness :
    (Atoi "abc" = Except.error NumError.errSyntax ∧
      (scoreHandler ResponseWriter.fresh emptyDB { execFault := none, now := noon } "abc").calls
        = []) ∧
    (Atoi "" = Except.error NumError.errSyntax ∧
      (scoreHandler ResponseWriter.fresh emptyDB { execFault := none, now := noon } "").calls
        = []) :=
  ⟨⟨rfl, (invalid_score_rejected emptyDB { execFault := none, now := noon } "abc"
      NumError.errSyntax rfl).2.2.1⟩,
    ⟨rfl, (invalid_score_rejected emptyDB { execFault := none, now := noon } ""
      NumError.errSyntax rfl).2.2.1⟩⟩

/-! ## Accepted submissions -/

/-- C3, as stated, fails: `9223372036854775808` is the decimal text of the
integer `2 ^ 63`, and `scoreHandler` rejects it with status 400 without any
insert attempt. -/
theorem integer_score_counterexample :
    toString ((2 : Int) ^ 63) = "9223372036854775808" ∧
    (scoreHandler ResponseWriter.fresh emptyDB { execFault := none, now := noon }
      (toString ((2 : Int) ^ 63))).w.status = some 400 ∧
    (scoreHandler ResponseWriter.fresh emptyDB { execFault := none, now := noon }
      (toString ((2 : Int) ^ 63))).calls = [] := by
  refine ⟨by decide, by decide, by decide⟩

/-- C3 (amended): for every integer `n` of the 64-bit range
`-2^63 ≤ n < 2^63` (negative, zero or positive), `scoreHandler` run on the
decimal text of `n` does not reject it: it makes exactly one insert attempt,
carrying `n` as the score, and when the store accepts the insert the store
gains exactly one new row, with score `n`, and the reply is status 200 with
body `OK`. -/
theorem integer_score_accepted (db : DB) (env : ScoreEnv) (n : Int)
    (hlo : -(2 : Int) ^ 63 ≤ n) (hhi : n < (2 : Int) ^ 63) :
    (scoreHandler ResponseWriter.fresh db env (toString n)).calls =
      [DBCall.exec (Stmt.insertScore n)] ∧
    (env.execFault = none →
      (scoreHandler ResponseWriter.fresh db env (toString n)).db.rows =
        db.rows ++ [{ id := db.seq + 1, score := n, timestamp := env.now }] ∧
      (scoreHandler ResponseWriter.fresh db env (toString n)).w.status = some 200 ∧
      (scoreHandler ResponseWriter.fresh db env (toString n)).w.body = "OK") := by
  have hv := Atoi_toString n hlo hhi
  obtain ⟨fault, now⟩ := env
  cases fault with
  | some e =>
    rw [scoreHandler_fault ResponseWriter.fresh db now (toString n) n e hv]
    exact ⟨rfl, fun h => by cases h⟩
  | none =>
    rw [scoreHandler_ok ResponseWriter.fresh db now (toString n) n hv]
    have hbody : ((ResponseWriter.fresh.WriteHeader StatusOK).Write "OK").body = "OK" := by
      decide
    exact ⟨rfl, fun _ => ⟨rfl, rfl, hbody⟩⟩

/-- Concrete instance: the integer -7. -/
theorem integer_score_accepted_witness :
    (-(2 : Int) ^ 63 ≤ -7 ∧ (-7 : Int) < (2 : Int) ^ 63) ∧
    (scoreHandler ResponseWriter.fresh emptyDB { execFault := none, now := noon }
      (toString (-7 : Int))).calls = [DBCall.exec (Stmt.insertScore (-7))] :=
  ⟨⟨by decide, by decide⟩,
    (integer_score_accepted emptyDB { execFault := none, now := noon } (-7)
      (by decide) (by decide)).1⟩

/-! ## Failed insert -/

/-- C7, as stated, fails on the body: when the store rejects the insert the
reply has status 500 and its body is the message followed by a line feed, not
the bare message. -/
theorem insert_failure_counterexample :
    Atoi "42" = Except.ok 42 ∧
    (scoreHandler ResponseWriter.fresh emptyDB
      { execFault := some "database is locked", now := noon } "42").w.status = some 500 ∧
    (scoreHandler ResponseWriter.fresh emptyDB
      { execFault := some "database is locked", now := noon } "42").w.body
      ≠ "Failed to record score" := by
  refine ⟨rfl, rfl, ?_⟩
  decide

/-- C7 (amended): for every path segment that parses as an integer, when the
store rejects the insert `scoreHandler` replies with status 500 and the body
`Failed to record score` followed by one line feed, has made exactly one insert
attempt and no second one, and leaves the store exactly as it was. -/
theorem insert_failure_reported (db : DB) (now : Timestamp) (value : String) (s : Int)
    (e : String) (hv : Atoi value = Except.ok s) :
    (scoreHandler ResponseWriter.fresh db { execFault := some e, now := now } value).w.status
      = some 500 ∧
    (scoreHandler ResponseWriter.fresh db { execFault := some e, now := now } value).w.body
      = "Failed to record score\n" ∧
    (scoreHandler ResponseWriter.fresh db { execFault := some e, now := now } value).calls
      = [DBCall.exec (Stmt.insertScore s)] ∧
    (scoreHandler ResponseWriter.fresh db { execFault := some e, now := now } value).db = db ∧
    (scoreHandler ResponseWriter.fresh db { execFault := some e, now := now } value).logs
      = ["scoreHandler: " ++ e ++ "\n"] := by
  rw [scoreHandler_fault ResponseWriter.fresh db now value s e hv]
  have hbody :
      (httpError ResponseWriter.fresh "Failed to record score" StatusInternalServerError).body =
        "Failed to record score\n" := by decide
  exact ⟨rfl, hbody, rfl, rfl, rfl⟩

/-- Concrete instance: a locked store and the score 42. -/
theorem insert_failure_reported_witness :
    Atoi "42" = Except.ok 42 ∧
    (scoreHandler ResponseWriter.fresh emptyDB
      { execFault := some "database is locked", now := noon } "42").db = emptyDB :=
  ⟨rfl, (insert_failure_reported emptyDB noon "42" 42 "database is locked" rfl).2.2.2.1⟩

/-! ## Statistics -/

/-- C4: when at least one row is dated `d` and no query fails, `statsHandler`
run on date `d` reports the number of all rows, the number of rows dated `d`,
and as high score the maximum score among the rows dated `d` (it is the score
of such a row and no such row has a larger one); when all of them are negative
the high score is negative too; and after 10, 25 and 7 are submitted on date
`d` into the empty store the reply has high score 25 and three games today. -/
theorem stats_counts_and_maximum (w : ResponseWriter) (db : DB) (d : Date)
    (h : ∃ row ∈ db.rows, DATE row.timestamp = d) :
    (statsHandler w db (noFault d)).stats.GamesPlayedAllTime = (db.rows.length : Int) ∧
    (statsHandler w db (noFault d)).stats.GamesPlayedToday =
      ((db.rows.countP (fun r => decide (DATE r.timestamp = d)) : Nat) : Int) ∧
    (∃ row ∈ db.rows, DATE row.timestamp = d ∧
      row.score = (statsHandler w db (noFault d)).stats.HighScore) ∧
    (∀ row ∈ db.rows, DATE row.timestamp = d →
      row.score ≤ (statsHandler w db (noFault d)).stats.HighScore) ∧
    ((∀ row ∈ db.rows, DATE row.timestamp = d → row.score < 0) →
      (statsHandler w db (noFault d)).stats.HighScore < 0) ∧
    (∀ t1 t2 t3 : Timestamp, DATE t1 = d → DATE t2 = d → DATE t3 = d →
      (statsHandler w
        (scoreHandler w
          (scoreHandler w
            (scoreHandler w emptyDB { execFault := none, now := t1 } "10").db
            { execFault := none, now := t2 } "25").db
          { execFault := none, now := t3 } "7").db
        (noFault d)).stats.HighScore = 25 ∧
      (statsHandler w
        (scoreHandler w
          (scoreHandler w
            (scoreHandler w emptyDB { execFault := none, now := t1 } "10").db
            { execFault := none, now := t2 } "25").db
          { execFault := none, now := t3 } "7").db
        (noFault d)).stats.GamesPlayedToday = 3) := by
  have hmax : (∃ row ∈ db.rows, DATE row.timestamp = d ∧
        row.score = (statsHandler w db (noFault d)).stats.HighScore) ∧
      (∀ row ∈ db.rows, DATE row.timestamp = d →
        row.score ≤ (statsHandler w db (noFault d)).stats.HighScore) := by
    simp only [statsHandler_stats, noFault, DB.queryRow]
    obtain ⟨r0, hr0, hd0⟩ := h
    have hmem0 : r0.score ∈ (db.rowsOn d).map Row.score :=
      List.mem_map.mpr ⟨r0, (mem_rowsOn db d r0).mpr ⟨hr0, hd0⟩, rfl⟩
    generalize hl : (db.rowsOn d).map Row.score = l at hmem0
    cases l with
    | nil => cases hmem0
    | cons x xs =>
      simp only [sqlMax, scanInt]
      constructor
      · have hin : xs.foldl max x ∈ (db.rowsOn d).map Row.score := by
          rw [hl]; exact foldl_max_mem xs x
        obtain ⟨row, hrow, hsc⟩ := List.mem_map.mp hin
        exact ⟨row, ((mem_rowsOn db d row).mp hrow).1, ((mem_rowsOn db d row).mp hrow).2, hsc⟩
      · intro row hrow hd
        have hin : row.score ∈ x :: xs := by
          rw [← hl]
          exact List.mem_map.mpr ⟨row, (mem_rowsOn db d row).mpr ⟨hrow, hd⟩, rfl⟩
        rcases List.mem_cons.mp hin with hx | hx
        · rw [hx]; exact foldl_max_ge_init xs x
        · exact foldl_max_ge_mem xs x _ hx
  refine ⟨rfl, ?_, hmax.1, hmax.2, ?_, ?_⟩
  · simp only [statsHandler_stats, noFault, DB.queryRow, scanInt, DB.rowsOn,
      List.countP_eq_length_filter]
  · intro hneg
    obtain ⟨row, hrow, hd, hsc⟩ := hmax.1
    rw [← hsc]
    exact hneg row hrow hd
  · intro t1 t2 t3 h1 h2 h3
    rw [scoreHandler_ok w emptyDB t1 "10" 10 rfl]
    rw [scoreHandler_ok w _ t2 "25" 25 rfl]
    rw [scoreHandler_ok w _ t3 "7" 7 rfl]
    simp [statsHandler_stats, noFault, DB.queryRow, scanInt, DB.rowsOn, emptyDB, h1, h2, h3,
      sqlMax]

/-- Concrete instance: a store whose only row is dated
`day1`. -/
theorem stats_counts_and_maximum_witness :
    (∃ row ∈ [({ id := 1, score := -3, timestamp := noon } : Row)],
      DATE row.timestamp = day1) ∧
    (statsHandler ResponseWriter.fresh
      { rows := [{ id := 1, score := -3, timestamp := noon }], seq := 1, pragmas := [] }
      (noFault day1)).stats.GamesPlayedAllTime = 1 :=
  ⟨⟨_, List.mem_singleton.mpr rfl, rfl⟩,
    (stats_counts_and_maximum ResponseWriter.fresh
      { rows := [{ id := 1, score := -3, timestamp := noon }], seq := 1, pragmas := [] } day1
      ⟨_, List.mem_singleton.mpr rfl, rfl⟩).1⟩

/-- The reply `sendJSON` writes on a fresh writer. -/
theorem sendJSON_fresh (code : Nat) (data : GameStats) :
    sendJSON ResponseWriter.fresh code data =
      ({ header := [("Content-Type", "application/json")],
         status := some code,
         body := "\x7b\"games_played_all_time\":" ++ toString data.GamesPlayedAllTime
           ++ ",\"games_played_today\":" ++ toString data.GamesPlayedToday
           ++ ",\"high_score\":" ++ toString data.HighScore ++ "\x7d" ++ "\n" }, none) := by
  simp [sendJSON, jsonMarshal, ResponseWriter.fresh, ResponseWriter.setHeader,
    ResponseWriter.WriteHeader, ResponseWriter.Write]

/-- C5: when no row is dated today (the empty store included), whatever the
outcome of the three queries, `statsHandler` replies with status 200,
`games_played_today = 0` and `high_score = 0`: `MAX(score)` yields NULL, the
scan into the integer fails, and the field keeps the value zero, which is what
the JSON body carries. -/
theorem stats_without_rows_today (db : DB) (env : StatsEnv)
    (h : ∀ row ∈ db.rows, DATE row.timestamp ≠ env.utc) :
    (statsHandler ResponseWriter.fresh db env).stats.GamesPlayedToday = 0 ∧
    (statsHandler ResponseWriter.fresh db env).stats.HighScore = 0 ∧
    (statsHandler ResponseWriter.fresh db env).w.status = some 200 ∧
    db.queryRow (Query.maxScoreOnDate env.utc) none = Except.ok SqlValue.null ∧
    (statsHandler ResponseWriter.fresh db env).w.body =
      "\x7b\"games_played_all_time\":"
        ++ toString (statsHandler ResponseWriter.fresh db env).stats.GamesPlayedAllTime
        ++ ",\"games_played_today\":" ++ toString (0 : Int)
        ++ ",\"high_score\":" ++ toString (0 : Int) ++ "\x7d" ++ "\n" := by
  have hnil : db.rowsOn env.utc = [] := (rowsOn_eq_nil_iff db env.utc).mpr h
  have htoday : (statsHandler ResponseWriter.fresh db env).stats.GamesPlayedToday = 0 := by
    rw [statsHandler_stats]
    cases hf : env.faultToday <;> simp [DB.queryRow, scanInt, hnil]
  have hhigh : (statsHandler ResponseWriter.fresh db env).stats.HighScore = 0 := by
    rw [statsHandler_stats]
    cases hf : env.faultHighScore <;> simp [DB.queryRow, scanInt, hnil, sqlMax]
  refine ⟨htoday, hhigh, ?_, ?_, ?_⟩
  · rw [statsHandler_w, sendJSON_fresh]
    rfl
  · simp [DB.queryRow, hnil, sqlMax]
  · rw [statsHandler_w, sendJSON_fresh, htoday, hhigh]

/-- Concrete instance: the empty store. -/
theorem stats_without_rows_today_witness :
    (∀ row ∈ emptyDB.rows, DATE row.timestamp ≠ (noFault day1).utc) ∧
    (statsHandler ResponseWriter.fresh emptyDB (noFault day1)).stats.HighScore = 0 :=
  ⟨(fun _ hrow => by cases hrow),
    (stats_without_rows_today emptyDB (noFault day1) (fun _ hrow => by cases hrow)).2.1⟩

/-! ## Failing queries -/

/-- C6: whichever of the three queries fail, the reply of `statsHandler` has
status 200, each field whose query failed is 0, and each field whose query
succeeded has the value it has in the run where no query fails. -/
theorem stats_fields_independent (db : DB) (d : Date) (f1 f2 f3 : Option String) :
    (statsHandler ResponseWriter.fresh db
      { utc := d, faultAllTime := f1, faultToday := f2, faultHighScore := f3 }).w.status
      = some 200 ∧
    (statsHandler ResponseWriter.fresh db
      { utc := d, faultAllTime := f1, faultToday := f2, faultHighScore := f3 }).stats.GamesPlayedAllTime
      = (if f1.isSome then 0
         else (statsHandler ResponseWriter.fresh db (noFault d)).stats.GamesPlayedAllTime) ∧
    (statsHandler ResponseWriter.fresh db
      { utc := d, faultAllTime := f1, faultToday := f2, faultHighScore := f3 }).stats.GamesPlayedToday
      = (if f2.isSome then 0
         else (statsHandler ResponseWriter.fresh db (noFault d)).stats.GamesPlayedToday) ∧
    (statsHandler ResponseWriter.fresh db
      { utc := d, faultAllTime := f1, faultToday := f2, faultHighScore := f3 }).stats.HighScore
      = (if f3.isSome then 0
         else (statsHandler ResponseWriter.fresh db (noFault d)).stats.HighScore) := by
  refine ⟨?_, ?_, ?_, ?_⟩
  · rw [statsHandler_w, sendJSON_fresh]
    rfl
  · cases f1 <;> simp [statsHandler_stats, noFault, DB.queryRow, scanInt]
  · cases f2 <;> simp [statsHandler_stats, noFault, DB.queryRow, scanInt]
  · cases f3 <;> simp [statsHandler_stats, noFault, DB.queryRow, scanInt]

/-! ## Reads do not write -/

/-- C8: `statsHandler` leaves the store as it was and calls only `QueryRow` on
it, and a second `statsHandler` run on the same date with the same query
outcomes reports the same three values and sends the same reply. -/
theorem stats_idempotent (db : DB) (env : StatsEnv) :
    (statsHandler ResponseWriter.fresh db env).db = db ∧
    (∀ c ∈ (statsHandler ResponseWriter.fresh db env).calls, ∃ q, c = DBCall.queryRow q) ∧
    (statsHandler ResponseWriter.fresh (statsHandler ResponseWriter.fresh db env).db env).stats
      = (statsHandler ResponseWriter.fresh db env).stats ∧
    (statsHandler ResponseWriter.fresh (statsHandler ResponseWriter.fresh db env).db env).w
      = (statsHandler ResponseWriter.fresh db env).w := by
  refine ⟨rfl, ?_, ?_, ?_⟩
  · intro c hc
    have hcalls : (statsHandler ResponseWriter.fresh db env).calls =
        [DBCall.queryRow Query.countAll, DBCall.queryRow (Query.countOnDate env.utc),
          DBCall.queryRow (Query.maxScoreOnDate env.utc)] := rfl
    rw [hcalls] at hc
    simp only [List.mem_cons, List.mem_singleton, List.not_mem_nil, or_false] at hc
    rcases hc with h | h | h
    · exact ⟨_, h⟩
    · exact ⟨_, h⟩
    · exact ⟨_, h⟩
  · rw [statsHandler_db]
  · rw [statsHandler_db]

/-! ## Shape of the reply -/

theorem toDigitsCore_no_lf (fuel : Nat) :
    ∀ (n : Nat) (ds : List Char), (∀ c ∈ ds, c ≠ '\n') →
      ∀ c ∈ Nat.toDigitsCore 10 fuel n ds, c ≠ '\n' := by
  induction fuel with
  | zero => intro n ds hds; simpa [Nat.toDigitsCore] using hds
  | succ fuel ih =>
    intro n ds hds
    have hd := digitChar_digit (n % 10) (Nat.mod_lt _ (by decide))
    have hne : Nat.digitChar (n % 10) ≠ '\n' := by
      intro h
      rw [h] at hd
      exact absurd hd.1 (by decide)
    have hds' : ∀ c ∈ Nat.digitChar (n % 10) :: ds, c ≠ '\n' := by
      intro c hc
      rcases List.mem_cons.mp hc with h | h
      · rw [h]; exact hne
      · exact hds c h
    unfold Nat.toDigitsCore
    by_cases h0 : n / 10 = 0
    · simpa only [h0, if_true] using hds'
    · simp only [h0, if_false]
      exact ih (n / 10) _ hds'

theorem toString_int_no_lf (n : Int) : ∀ c ∈ (toString n).data, c ≠ '\n' := by
  cases n with
  | ofNat m =>
    show ∀ c ∈ (Nat.toDigits 10 m).asString.data, c ≠ '\n'
    simpa [List.asString, Nat.toDigits] using
      toDigitsCore_no_lf (m + 1) m [] (fun _ hc => by cases hc)
  | negSucc m =>
    show ∀ c ∈ ("-" ++ (Nat.toDigits 10 (m + 1)).asString).data, c ≠ '\n'
    intro c hc
    simp only [String.data_append, List.asString, List.mem_append] at hc
    rcases hc with h | h
    · have : c = '-' := by simpa using h
      rw [this]; decide
    · exact toDigitsCore_no_lf (m + 1 + 1) (m + 1) [] (fun _ hc => by cases hc) c h

/-- C9: for every `GameStats` value the reply of `sendJSON`, which is the reply
of `statsHandler`, has status 200, header `Content-Type` equal to
`application/json`, and as body the JSON object with the three integer fields
`games_played_all_time`, `games_played_today` and `high_score`, in that order
and carrying the three values, followed by one line feed; the object itself
contains no line feed, and `sendJSON` returns no error. -/
theorem stats_reply_format (data : GameStats) :
    (sendJSON ResponseWriter.fresh StatusOK data).1.status = some 200 ∧
    (sendJSON ResponseWriter.fresh StatusOK data).1.getHeader "Content-Type"
      = some "application/json" ∧
    (sendJSON ResponseWriter.fresh StatusOK data).1.body =
      ("\x7b\"games_played_all_time\":" ++ toString data.GamesPlayedAllTime
        ++ ",\"games_played_today\":" ++ toString data.GamesPlayedToday
        ++ ",\"high_score\":" ++ toString data.HighScore ++ "\x7d") ++ "\n" ∧
    (∀ c ∈ ("\x7b\"games_played_all_time\":" ++ toString data.GamesPlayedAllTime
        ++ ",\"games_played_today\":" ++ toString data.GamesPlayedToday
        ++ ",\"high_score\":" ++ toString data.HighScore ++ "\x7d").data, c ≠ '\n') ∧
    (sendJSON ResponseWriter.fresh StatusOK data).2 = none ∧
    (∀ (db : DB) (env : StatsEnv),
      (statsHandler ResponseWriter.fresh db env).w =
        (sendJSON ResponseWriter.fresh StatusOK (statsHandler ResponseWriter.fresh db env).stats).1)
    := by
  rw [sendJSON_fresh]
  have hget : ∀ (code : Nat) (body : String),
      ResponseWriter.getHeader
        { header := [("Content-Type", "application/json")], status := some code, body := body }
        "Content-Type" = some "application/json" := by
    intro code body
    simp [ResponseWriter.getHeader]
  refine ⟨rfl, hget _ _, rfl, ?_, rfl, fun db env => statsHandler_w _ db env⟩
  intro c hc
  simp only [String.data_append, List.mem_append] at hc
  rcases hc with (((((h | h) | h) | h) | h) | h) | h
  · revert c; decide
  · exact toString_int_no_lf _ c h
  · revert c; decide
  · exact toString_int_no_lf _ c h
  · revert c; decide
  · exact toString_int_no_lf _ c h
  · revert c; decide

/-! ## Start-up options -/

/-- C10, as stated, fails: `execPragmas` executes five option statements, and
the one that sets `cache_size=-64000` is not among the four of the claim. -/
theorem pragmas_counterexample :
    (execPragmas emptyDB noon (fun _ => none)).calls ≠
      [DBCall.exec (Stmt.pragma "journal_mode" "WAL"),
       DBCall.exec (Stmt.pragma "synchronous" "NORMAL"),
       DBCall.exec (Stmt.pragma "foreign_keys" "ON"),
       DBCall.exec (Stmt.pragma "busy_timeout" "30000")] ∧
    DBCall.exec (Stmt.pragma "cache_size" "-64000") ∈
      (execPragmas emptyDB noon (fun _ => none)).calls := by
  decide

/-- C10 (amended): the option statements `execPragmas` executes at startup are
five, in this order: `journal_mode=WAL`, `synchronous=NORMAL`,
`foreign_keys=ON`, `cache_size=-64000` and `busy_timeout=30000`; when none
fails these five are applied to the store and the rows are untouched, and
when one fails the statements executed are an initial part of the five. -/
theorem pragmas_executed (db : DB) (now : Timestamp) (fault : Stmt → Option String) :
    (execPragmas db now (fun _ => none)).calls =
      [DBCall.exec (Stmt.pragma "journal_mode" "WAL"),
       DBCall.exec (Stmt.pragma "synchronous" "NORMAL"),
       DBCall.exec (Stmt.pragma "foreign_keys" "ON"),
       DBCall.exec (Stmt.pragma "cache_size" "-64000"),
       DBCall.exec (Stmt.pragma "busy_timeout" "30000")] ∧
    (execPragmas db now (fun _ => none)).fatal = none ∧
    (execPragmas db now (fun _ => none)).db.pragmas =
      db.pragmas ++ [("journal_mode", "WAL"), ("synchronous", "NORMAL"), ("foreign_keys", "ON"),
        ("cache_size", "-64000"), ("busy_timeout", "30000")] ∧
    (execPragmas db now (fun _ => none)).db.rows = db.rows ∧
    (execPragmas db now fault).calls <+:
      [DBCall.exec (Stmt.pragma "journal_mode" "WAL"),
       DBCall.exec (Stmt.pragma "synchronous" "NORMAL"),
       DBCall.exec (Stmt.pragma "foreign_keys" "ON"),
       DBCall.exec (Stmt.pragma "cache_size" "-64000"),
       DBCall.exec (Stmt.pragma "busy_timeout" "30000")] := by
  refine ⟨rfl, rfl, ?_, rfl, ?_⟩
  · simp [execPragmas, DB.exec]
  · unfold execPragmas
    cases h1 : fault (Stmt.pragma "journal_mode" "WAL") <;>
    cases h2 : fault (Stmt.pragma "synchronous" "NORMAL") <;>
    cases h3 : fault (Stmt.pragma "foreign_keys" "ON") <;>
    cases h4 : fault (Stmt.pragma "cache_size" "-64000") <;>
    cases h5 : fault (Stmt.pragma "busy_timeout" "30000") <;>
    simp [DB.exec, h1, h2, h3, h4, h5, List.prefix_cons_inj]

end Jawbreaker
